import Mathlib

/-!
Verification of the ∞-V scene-generation pipeline (`src/agents.py`, `src/app.py`)
against its natural-language specification.

The Python code is shallowly embedded: each function of `agents.py` becomes a
Lean definition of the same name (in `lowerCamelCase`).  The three optional LLM
credentials and the one search credential become a `Config` record; the external
LLM / search providers (network calls plus JSON parsing, which the code wraps in
`try/except` that falls through to the deterministic path) are abstracted as an
`Oracle` record whose members return `Option`-valued responses — `none` models
"call raised or the response failed to parse", `some r` models "call succeeded
and parsed as `r`".  Under the no-credential configuration the oracle is
provably never consulted, so typing the oracle responses with the structured
stage types loses nothing there.  For credentialed runs the modelled dialogue
response space is the set of JSON lists of dicts carrying the dialogue keys
with an arbitrary `"type"` entry — a subset of what `json.loads` can return,
and every value in it is a response a provider can actually produce, which is
what existential reasoning about credentialed runs (the C3 refutation) needs.

Python strings are modelled as Lean `String` (a list of characters), with the
Python string methods used by the code (`strip`, `rstrip('.')`, `lower`,
`capitalize`, `split(sep, 1)`, `in`, `split()`) defined explicitly below on the
character list.  Python floats only arise as `max(1.5, 0.15 * n)` rounded to two
decimals for a word count `n`; every reachable value is an exact multiple of
1/100 (`15 * n / 100` or `150 / 100`), so these are modelled exactly as `ℚ` and
the two-decimal rounding as `round (q * 100) / 100` (no reachable value is
affected by the float representation or by the round-half-to-even tie rule,
since none sits on a tie and all are exactly representable to within the
rounding granularity).
-/

/-! ## Python string primitives -/

/-- Whitespace characters stripped by Python's `str.strip()` (ASCII range). -/
def pyIsSpace (c : Char) : Bool :=
  c = ' ' || c = '\t' || c = '\n' || c = '\r' || c = '\x0b' || c = '\x0c'

/-- Python `str.strip()`: remove leading and trailing whitespace. -/
def pyStrip (s : String) : String :=
  ⟨((s.data.dropWhile pyIsSpace).reverse.dropWhile pyIsSpace).reverse⟩

/-- Python `str.rstrip(".")`: remove ALL trailing `'.'` characters. -/
def rstripDots (s : String) : String :=
  ⟨(s.data.reverse.dropWhile (fun c => c = '.')).reverse⟩

/-- Python `str.lower()` (ASCII model). -/
def pyLower (s : String) : String :=
  ⟨s.data.map Char.toLower⟩

/-- Python `str.capitalize()`: first character uppercased, ALL remaining
characters lowercased (ASCII model). -/
def pyCapitalize (s : String) : String :=
  ⟨match s.data with
   | [] => []
   | c :: rest => Char.toUpper c :: rest.map Char.toLower⟩

/-- Split on the FIRST occurrence of `pat`, as Python `s.split(pat, 1)` does
for a nonempty separator: `some (before, after)` when `pat` occurs in `s`
(`before` is the part before the first occurrence, `after` everything after
it), `none` when it does not occur.  `Python`'s membership test
`pat in s` corresponds to `isSome` of this result. -/
def firstSplit (pat : List Char) : List Char → Option (List Char × List Char)
  | [] => if pat.isPrefixOf ([] : List Char) then some ([], []) else none
  | c :: rest =>
    if pat.isPrefixOf (c :: rest) then some ([], (c :: rest).drop pat.length)
    else
      match firstSplit pat rest with
      | some (a, b) => some (c :: a, b)
      | none => none

/-- Python substring membership `pat in s`. -/
def containsSub (pat s : String) : Bool :=
  (firstSplit pat.data s.data).isSome

/-- Word counter for Python `len(s.split())`: number of maximal nonempty runs
of non-whitespace characters.  The Boolean argument records whether the scan
is currently inside a word. -/
def numWordsAux : Bool → List Char → Nat
  | _, [] => 0
  | inw, c :: rest =>
    if pyIsSpace c then numWordsAux false rest
    else (if inw then 0 else 1) + numWordsAux true rest

/-- `len(s.split())` in Python: the number of whitespace-separated words. -/
def numWords (s : String) : Nat := numWordsAux false s.data

/-- Python `round(q, 2)`.  Reachable arguments are exact multiples of 1/100,
where this is exact (and agrees with float `round`); see the header comment. -/
def round2 (q : ℚ) : ℚ := ((round (q * 100) : ℤ) : ℚ) / 100

/-! ## Data model (§3 of the spec) -/

/-- A scene character (`{name, role, traits}` dict in `agents.py`). -/
structure Character where
  name : String
  role : String
  traits : List (String × String)
deriving DecidableEq, Repr

/-- Scene metadata returned by `interpret_prompt`. -/
structure Metadata where
  scene_topic : String
  setting : String
  scene_type : String
  characters : List Character
  target_length_seconds : Int
deriving DecidableEq, Repr

/-- Result of `web_search`. -/
structure References where
  references : List String
  images : List String
deriving DecidableEq, Repr

/-- Result of `plan_scene`. -/
structure ScenePlan where
  scene_title : String
  background : String
  flow : List String
  dialogue_turns : Int
  camera_plan : List String
deriving DecidableEq, Repr

/-- A dialogue-stage dict of `generate_dialogue`, key for key, including its
literal `"type"` entry (`typeField`).  The deterministic path always writes
`"type": "dialogue"`; an LLM response is returned verbatim and may carry any
value here. -/
structure DialogueBlock where
  id : String
  typeField : String
  character : String
  traits : List (String × String)
  emotion : String
  text : String
  duration : ℚ
  voice_url : String
deriving DecidableEq, Repr

/-- An `add_actions` dict, key for key, including its literal `"type"` entry
(always `"action"` — `add_actions` has no LLM path). -/
structure ActionBlock where
  id : String
  typeField : String
  description : String
  timing : String
deriving DecidableEq, Repr

/-- One item of the final script.  The constructor records which of the two
concatenated lists the dict came from (`structure_script` appends the
`add_actions` list after the dialogue-stage list); the dict's own `"type"`
entry is `typeField` inside.  On the deterministic path the two coincide
(proved below); an LLM-supplied dialogue item keeps whatever `"type"` it
carried, which is what the serialized response exposes. -/
inductive Block where
  | dialogue (d : DialogueBlock)
  | action (a : ActionBlock)
deriving DecidableEq, Repr

/-- The literal `"type"` entry of a script item — the tag by which the
response's consumers distinguish dialogue from action blocks. -/
def blockTypeField : Block → String
  | .dialogue d => d.typeField
  | .action a => a.typeField

/-- Whether a block is a dialogue block. -/
def isDialogue : Block → Bool
  | .dialogue _ => true
  | .action _ => false

/-- Whether a block is an action block. -/
def isAction : Block → Bool
  | .dialogue _ => false
  | .action _ => true

/-- The dialogue blocks of a script, in order. -/
def dialogueBlocks (s : List Block) : List Block := s.filter isDialogue

/-- The action blocks of a script, in order. -/
def actionBlocks (s : List Block) : List Block := s.filter isAction

/-- The ids of the dialogue blocks of a script, in order. -/
def dialogueIds (s : List Block) : List String :=
  s.filterMap fun b => match b with
    | .dialogue d => some d.id
    | .action _ => none

/-- The ids of the action blocks of a script, in order. -/
def actionIds (s : List Block) : List String :=
  s.filterMap fun b => match b with
    | .dialogue _ => none
    | .action a => some a.id

/-! ## Configuration and provider oracle -/

/-- The four optional credentials read from the environment at module load
(`GROQ_API_KEY`, `OPENAI_API_KEY`, `ANTHROPIC_API_KEY`, `LETTA_API_KEY`).
`none` models an unset variable, `some s` a set one (Python truthiness of the
value decides whether the provider counts as configured). -/
structure Config where
  groq : Option String
  openaiKey : Option String
  anthropic : Option String
  letta : Option String
deriving DecidableEq, Repr

/-- Python truthiness of an optional environment string: set and nonempty. -/
def truthy : Option String → Bool
  | none => false
  | some s => !s.isEmpty

/-- `GROQ_API_KEY or OPENAI_API_KEY or ANTHROPIC_API_KEY` — the guard of every
LLM-backed stage path. -/
def llmConfigured (cfg : Config) : Bool :=
  truthy cfg.groq || truthy cfg.openaiKey || truthy cfg.anthropic

/-- `LETTA_API_KEY` truthiness — the guard of the search-backed path. -/
def searchConfigured (cfg : Config) : Bool := truthy cfg.letta

/-- No LLM and no search credential configured: every stage must take its
deterministic path. -/
def noCreds (cfg : Config) : Prop :=
  llmConfigured cfg = false ∧ searchConfigured cfg = false

instance : DecidablePred noCreds := fun cfg => by
  unfold noCreds; infer_instance

/-- The external world: one entry per provider-backed stage path.  Each entry
packages the network call, the JSON parse and the `try/except` of the
corresponding stage: `none` models "the call raised or the response did not
parse" (the stage then falls through to its deterministic path), `some r`
models a successful, parsed response. -/
structure Oracle where
  interpretResp : String → Option Metadata
  searchResp : String → Option References
  planResp : Metadata → References → Option ScenePlan
  dialogueResp : List Character → Int → String → Option (List DialogueBlock)

/-- All-unset configuration. -/
def cfgNone : Config := ⟨none, none, none, none⟩

/-- An oracle whose every call fails (falls through to deterministic paths). -/
def oracleNone : Oracle := ⟨fun _ => none, fun _ => none, fun _ _ => none, fun _ _ _ => none⟩

/-! ## Stage functions (`agents.py`) -/

/-- The literal separator `" in "` of `interpret_prompt`. -/
def inSep : String := " in "

/-- The Teacher character appended when `"teacher"` occurs in the prompt. -/
def teacherChar : Character := ⟨"Teacher", "teacher", []⟩

/-- The Student character appended when `"student"` occurs in the prompt. -/
def studentChar : Character := ⟨"Student", "student", []⟩

/-- The Narrator character appended when neither keyword occurs. -/
def narratorChar : Character := ⟨"Narrator", "narrator", []⟩

/-- Keyword-based character detection of `interpret_prompt`, applied to the
lowercased stripped prompt: Teacher if `"teacher"` occurs, then Student if
`"student"` occurs; Narrator alone when neither matched. -/
def charactersDet (lower : String) : List Character :=
  let base :=
    (if containsSub "teacher" lower then [teacherChar] else []) ++
    (if containsSub "student" lower then [studentChar] else [])
  if base.isEmpty then [narratorChar] else base

/-- The pre-normalization topic of the deterministic `interpret_prompt`: the
part of the stripped prompt before the first `" in "`, or the whole stripped
prompt when `" in "` does not occur (the local `first` resp. `clean` of the
Python code, before `rstrip(".")` is applied). -/
def topicRaw (p : String) : String :=
  match firstSplit inSep.data (pyStrip p).data with
  | some (a, _) => ⟨a⟩
  | none => pyStrip p

/-- The pre-normalization setting of the deterministic `interpret_prompt`: the
part of the stripped prompt after the first `" in "`, or the literal
`"unknown"` when `" in "` does not occur (the local `setting_part` of the
Python code, before `rstrip(".")` is applied). -/
def settingRaw (p : String) : String :=
  match firstSplit inSep.data (pyStrip p).data with
  | some (_, b) => ⟨b⟩
  | none => "unknown"

/-- Deterministic fallback of `interpret_prompt` (`agents.py` lines 78-105). -/
def interpretDet (p : String) : Metadata :=
  { scene_topic := pyCapitalize (rstripDots (topicRaw p))
  , setting :=
      match firstSplit inSep.data (pyStrip p).data with
      | some (_, b) => rstripDots ⟨b⟩
      | none => "unknown"
  , scene_type := "conversation"
  , characters := charactersDet (pyLower (pyStrip p))
  , target_length_seconds := 150 }

/-- `interpret_prompt`: LLM-backed when any LLM credential is configured
(falling through to the deterministic path on any failure), deterministic
otherwise. -/
def interpretPrompt (cfg : Config) (o : Oracle) (p : String) : Metadata :=
  if llmConfigured cfg then
    match o.interpretResp p with
    | some m => m
    | none => interpretDet p
  else interpretDet p

/-- The deterministic fallback `References` of `web_search`. -/
def fallbackRefs (scene_topic setting : String) : References :=
  { references :=
      [ "Facts about " ++ scene_topic ++ " gleaned from a web search."
      , "Information about " ++ setting ++ " for background." ]
  , images := [] }

/-- `web_search` (`agents.py` lines 108-131): provider-backed when
`LETTA_API_KEY` is configured, with any exception falling through to the
deterministic fallback; total — it always returns a `References`. -/
def webSearch (cfg : Config) (o : Oracle) (scene_topic setting : String) : References :=
  if searchConfigured cfg then
    match o.searchResp (pyStrip (scene_topic ++ " " ++ setting)) with
    | some r => r
    | none => fallbackRefs scene_topic setting
  else fallbackRefs scene_topic setting

/-- Deterministic fallback of `plan_scene` (`agents.py` lines 153-164).
The `references` argument is accepted but unused, as in the code. -/
def planDet (metadata : Metadata) : ScenePlan :=
  { scene_title := metadata.scene_topic
  , background := metadata.setting
  , flow := ["intro", "concept", "reaction", "wrap"]
  , dialogue_turns := 8
  , camera_plan := ["wide", "close-up", "medium", "wide"] }

/-- `plan_scene`: LLM-backed when configured, deterministic otherwise. -/
def planScene (cfg : Config) (o : Oracle) (metadata : Metadata) (references : References) :
    ScenePlan :=
  if llmConfigured cfg then
    match o.planResp metadata references with
    | some pl => pl
    | none => planDet metadata
  else planDet metadata

/-- One deterministic dialogue line of `generate_dialogue`: turn `i`
(1-indexed) spoken by `speaker`. -/
def mkLine (i : Nat) (speaker : Character) (topic : String) : DialogueBlock :=
  let text := "This is line " ++ toString i ++ " about " ++ topic ++ "."
  { id := toString i
  , typeField := "dialogue"
  , character := speaker.name
  , traits := speaker.traits
  , emotion := "neutral"
  , text := text
  , duration := round2 (max (3 / 2) ((3 / 20) * (numWords text : ℚ)))
  , voice_url := "" }

/-- The deterministic dialogue lines for a nonempty character list: turn `i`
(1-indexed) is spoken by character `(i-1) mod len` (the `itertools.cycle`).
Only called with a nonempty list (`genDialogueDet` guards the empty case);
the `getD` default is never reached since `j % cs.length < cs.length`. -/
def detLines (cs : List Character) (turns : Int) (topic : String) : List DialogueBlock :=
  (List.range turns.toNat).map fun j => mkLine (j + 1) (cs.getD (j % cs.length) narratorChar) topic

/-- Deterministic fallback of `generate_dialogue` (`agents.py` lines 187-208).
With an empty character list and at least one turn, the first
`next(itertools.cycle([]))` raises `StopIteration`, modelled as `none`;
with no turns the loop body never runs and `[]` is returned. -/
def genDialogueDet : List Character → Int → String → Option (List DialogueBlock)
  | [], turns, _ => if 1 ≤ turns then none else some []
  | c :: cs, turns, topic => some (detLines (c :: cs) turns topic)

/-- `generate_dialogue`: LLM-backed when configured, deterministic otherwise. -/
def generateDialogue (cfg : Config) (o : Oracle) (characters : List Character)
    (turns : Int) (topic : String) : Option (List DialogueBlock) :=
  if llmConfigured cfg then
    match o.dialogueResp characters turns topic with
    | some d => some d
    | none => genDialogueDet characters turns topic
  else genDialogueDet characters turns topic

/-- Auxiliary recursion of `add_actions`, carrying the full dialogue length
`n` and the 1-based index `idx` of `enumerate(dialogue, 1)`. -/
def addActionsAux (n : Nat) : Nat → List DialogueBlock → List ActionBlock
  | _, [] => []
  | idx, line :: rest =>
    { id := toString (n + idx)
    , typeField := "action"
    , description := line.character ++ " gestures while speaking."
    , timing := "after" } :: addActionsAux n (idx + 1) rest

/-- `add_actions` (`agents.py` lines 211-224): one gesture action per dialogue
block; the `characters` argument is accepted but unused, as in the code. -/
def addActions (dialogue : List DialogueBlock) (_characters : List Character) :
    List ActionBlock :=
  addActionsAux dialogue.length 1 dialogue

/-- `structure_script` (`agents.py` lines 227-230): dialogue then actions. -/
def structureScript (dialogue : List DialogueBlock) (actions : List ActionBlock) :
    List Block :=
  dialogue.map Block.dialogue ++ actions.map Block.action

/-- `run_pipeline` (`agents.py` lines 233-243): Interpret → Search → Plan →
Dialogue → Actions, strictly in order.  `none` models an uncaught exception
escaping the pipeline (only possible from `generate_dialogue`'s
`StopIteration` in this embedding, proved unreachable below). -/
def runPipeline (cfg : Config) (o : Oracle) (p : String) : Option (List Block) :=
  Option.map
    (fun d => structureScript d (addActions d (interpretPrompt cfg o p).characters))
    (generateDialogue cfg o (interpretPrompt cfg o p).characters
      (planScene cfg o (interpretPrompt cfg o p)
        (webSearch cfg o (interpretPrompt cfg o p).scene_topic
          (interpretPrompt cfg o p).setting)).dialogue_turns
      (interpretPrompt cfg o p).scene_topic)

/-- The value `run_pipeline` computes on the deterministic (no-credential)
path. -/
def detScript (p : String) : List Block :=
  structureScript
    (detLines (interpretDet p).characters 8 (interpretDet p).scene_topic)
    (addActions (detLines (interpretDet p).characters 8 (interpretDet p).scene_topic)
      (interpretDet p).characters)

/-! ## HTTP endpoint (`app.py`) -/

/-- A parsed JSON value, as produced by Flask's `request.get_json`. -/
inductive Json where
  | bool (b : Bool)
  | num (n : Int)
  | str (s : String)
  | arr (elems : List Json)
  | obj (fields : List (String × Json))

/-- Python truthiness of a JSON value (`not data`): `False`, `0`, `""`, `[]`
and `{}` are falsy. -/
def pyTruthy : Json → Bool
  | .bool b => b
  | .num n => n != 0
  | .str s => !s.isEmpty
  | .arr elems => !elems.isEmpty
  | .obj fields => !fields.isEmpty

/-- Python `==` between the string `"prompt"` and a JSON value. -/
def isPromptStr : Json → Bool
  | .str s => s = "prompt"
  | _ => false

/-- Python `'prompt' in data`: key membership for a dict, element equality for
a list, substring test for a string; a `TypeError` (modelled as `Except.error`)
for non-container values. -/
def pyContainsPrompt : Json → Except Unit Bool
  | .obj fields => .ok (fields.any fun kv => kv.1 = "prompt")
  | .arr elems => .ok (elems.any isPromptStr)
  | .str s => .ok (containsSub "prompt" s)
  | .bool _ => .error ()
  | .num _ => .error ()

/-- Python `data['prompt']`: last-binding key lookup for a dict (`json.loads`
keeps the last duplicate); a `TypeError` for a list or string subscripted with
a string, and for non-subscriptable values. -/
def pyGetPrompt : Json → Except Unit Json
  | .obj fields =>
    match fields.reverse.find? (fun kv => kv.1 = "prompt") with
    | some kv => .ok kv.2
    | none => .error ()
  | _ => .error ()

/-- The body of an HTTP response of `generate_scene`. -/
inductive RespBody where
  | errorMissingPrompt
  | script (blocks : List Block)
deriving DecidableEq

/-- The outcome of one request: a response with a status code, or an
unhandled exception propagating as an unstructured server error. -/
inductive HttpResult where
  | response (status : Nat) (body : RespBody)
  | serverError
deriving DecidableEq

/-- `generate_scene` (`app.py` lines 9-18).  The argument is the result of
`request.get_json(silent=True)`: `none` for a body that is not valid JSON
(or the JSON literal `null`, which parses to Python `None`).  The guard is
`not data or 'prompt' not in data`; evaluation of the membership test or of
`data['prompt']` can itself raise, and `run_pipeline` raises on a non-string
prompt (`.strip()` on a non-string) — all modelled as `serverError`. -/
def generateScene (cfg : Config) (o : Oracle) (data : Option Json) : HttpResult :=
  match data with
  | none => .response 400 .errorMissingPrompt
  | some j =>
    if pyTruthy j then
      match pyContainsPrompt j with
      | .error _ => .serverError
      | .ok false => .response 400 .errorMissingPrompt
      | .ok true =>
        match pyGetPrompt j with
        | .error _ => .serverError
        | .ok (.str prompt) =>
          match runPipeline cfg o prompt with
          | some blocks => .response 200 (.script blocks)
          | none => .serverError
        | .ok _ => .serverError
    else .response 400 .errorMissingPrompt

/-! ## Helper lemmas: the no-credential path -/

theorem interpretPrompt_det (cfg : Config) (o : Oracle) (p : String)
    (h : llmConfigured cfg = false) : interpretPrompt cfg o p = interpretDet p := by
  simp [interpretPrompt, h]

theorem webSearch_det (cfg : Config) (o : Oracle) (t s : String)
    (h : searchConfigured cfg = false) : webSearch cfg o t s = fallbackRefs t s := by
  simp [webSearch, h]

theorem planScene_det (cfg : Config) (o : Oracle) (m : Metadata) (r : References)
    (h : llmConfigured cfg = false) : planScene cfg o m r = planDet m := by
  simp [planScene, h]

theorem generateDialogue_det (cfg : Config) (o : Oracle) (cs : List Character)
    (turns : Int) (topic : String) (h : llmConfigured cfg = false) :
    generateDialogue cfg o cs turns topic = genDialogueDet cs turns topic := by
  simp [generateDialogue, h]

theorem charactersDet_ne_nil (lower : String) : charactersDet lower ≠ [] := by
  unfold charactersDet
  by_cases h1 : containsSub "teacher" lower <;>
    by_cases h2 : containsSub "student" lower <;>
      simp [h1, h2]

theorem interpretDet_characters (p : String) :
    (interpretDet p).characters = charactersDet (pyLower (pyStrip p)) := rfl

theorem genDialogueDet_of_ne_nil (cs : List Character) (turns : Int) (topic : String)
    (h : cs ≠ []) : genDialogueDet cs turns topic = some (detLines cs turns topic) := by
  cases cs with
  | nil => exact absurd rfl h
  | cons c rest => rfl

/-- Master lemma: with no credentials, `run_pipeline` returns exactly the
deterministic script, whatever the external world would have answered. -/
theorem runPipeline_noCreds (cfg : Config) (o : Oracle) (p : String)
    (h : noCreds cfg) : runPipeline cfg o p = some (detScript p) := by
  obtain ⟨h1, _h2⟩ := h
  unfold runPipeline detScript
  rw [interpretPrompt_det cfg o p h1, generateDialogue_det cfg o _ _ _ h1,
    planScene_det cfg o _ _ h1,
    genDialogueDet_of_ne_nil _ _ _
      (interpretDet_characters p ▸ charactersDet_ne_nil (pyLower (pyStrip p)))]
  rfl

/-! ## Helper lemmas: scripts, lengths, ids -/

theorem detLines_length (cs : List Character) (turns : Int) (topic : String) :
    (detLines cs turns topic).length = turns.toNat := by
  simp [detLines]

theorem addActionsAux_length (n : Nat) :
    ∀ (idx : Nat) (d : List DialogueBlock), (addActionsAux n idx d).length = d.length := by
  intro idx d
  induction d generalizing idx with
  | nil => rfl
  | cons line rest ih => simp [addActionsAux, ih]

theorem addActions_length (d : List DialogueBlock) (cs : List Character) :
    (addActions d cs).length = d.length :=
  addActionsAux_length d.length 1 d

theorem filter_isDialogue_structure (d : List DialogueBlock) (a : List ActionBlock) :
    dialogueBlocks (structureScript d a) = d.map Block.dialogue := by
  unfold dialogueBlocks structureScript
  rw [List.filter_append]
  have hd : (d.map Block.dialogue).filter isDialogue = d.map Block.dialogue := by
    induction d with
    | nil => rfl
    | cons x xs ih => simp [isDialogue, ih]
  have ha : (a.map Block.action).filter isDialogue = [] := by
    induction a with
    | nil => rfl
    | cons x xs ih => simp [isDialogue, ih]
  rw [hd, ha, List.append_nil]

theorem filter_isAction_structure (d : List DialogueBlock) (a : List ActionBlock) :
    actionBlocks (structureScript d a) = a.map Block.action := by
  unfold actionBlocks structureScript
  rw [List.filter_append]
  have hd : (d.map Block.dialogue).filter isAction = [] := by
    induction d with
    | nil => rfl
    | cons x xs ih => simp [isAction, ih]
  have ha : (a.map Block.action).filter isAction = a.map Block.action := by
    induction a with
    | nil => rfl
    | cons x xs ih => simp [isAction, ih]
  rw [hd, ha, List.nil_append]

theorem dialogueIds_structure (d : List DialogueBlock) (a : List ActionBlock) :
    dialogueIds (structureScript d a) = d.map DialogueBlock.id := by
  unfold dialogueIds structureScript
  rw [List.filterMap_append]
  have hd : ∀ ds : List DialogueBlock,
      (ds.map Block.dialogue).filterMap (fun b => match b with
        | .dialogue x => some x.id
        | .action _ => none) = ds.map DialogueBlock.id := by
    intro ds
    induction ds with
    | nil => rfl
    | cons x xs ih => simp [ih]
  have ha : (a.map Block.action).filterMap (fun b => match b with
      | .dialogue x => some x.id
      | .action _ => none) = [] := by
    induction a with
    | nil => rfl
    | cons x xs ih => simp [ih]
  rw [hd, ha, List.append_nil]

theorem actionIds_structure (d : List DialogueBlock) (a : List ActionBlock) :
    actionIds (structureScript d a) = a.map ActionBlock.id := by
  unfold actionIds structureScript
  rw [List.filterMap_append]
  have hd : (d.map Block.dialogue).filterMap (fun b => match b with
      | .dialogue _ => none
      | .action x => some x.id) = [] := by
    induction d with
    | nil => rfl
    | cons x xs ih => simp [ih]
  have ha : ∀ acts : List ActionBlock,
      (acts.map Block.action).filterMap (fun b => match b with
        | .dialogue _ => none
        | .action x => some x.id) = acts.map ActionBlock.id := by
    intro acts
    induction acts with
    | nil => rfl
    | cons x xs ih => simp [ih]
  rw [hd, ha, List.nil_append]

theorem detLines_ids (cs : List Character) (turns : Int) (topic : String) :
    (detLines cs turns topic).map DialogueBlock.id =
      (List.range turns.toNat).map (fun j => toString (j + 1)) := by
  simp [detLines, mkLine]

theorem addActionsAux_ids (n : Nat) :
    ∀ (idx : Nat) (d : List DialogueBlock),
      (addActionsAux n idx d).map ActionBlock.id =
        (List.range d.length).map (fun j => toString (n + idx + j)) := by
  intro idx d
  induction d generalizing idx with
  | nil => rfl
  | cons line rest ih =>
    simp only [addActionsAux, List.map_cons, List.length_cons,
      List.range_succ_eq_map, List.map_map, ih]
    congr 1
    · simp
      intro a _
      congr 1
      omega

theorem addActionsAux_descriptions (n : Nat) :
    ∀ (idx : Nat) (d : List DialogueBlock),
      (addActionsAux n idx d).map ActionBlock.description =
        d.map (fun line => line.character ++ " gestures while speaking.") := by
  intro idx d
  induction d generalizing idx with
  | nil => rfl
  | cons line rest ih => simp [addActionsAux, ih]

theorem addActionsAux_timings (n : Nat) :
    ∀ (idx : Nat) (d : List DialogueBlock),
      (addActionsAux n idx d).map ActionBlock.timing = List.replicate d.length "after" := by
  intro idx d
  induction d generalizing idx with
  | nil => rfl
  | cons line rest ih => simp [addActionsAux, ih, List.replicate_succ]

/-! ## Helper lemmas: first-occurrence splitting -/

theorem firstSplit_some_characterization (pat : List Char) :
    ∀ (s a b : List Char), firstSplit pat s = some (a, b) →
      s = a ++ pat ++ b ∧ ∀ a' b', s = a' ++ pat ++ b' → a.length ≤ a'.length := by
  intro s
  induction s with
  | nil =>
    intro a b h
    simp only [firstSplit] at h
    by_cases hp : pat.isPrefixOf ([] : List Char)
    · rw [if_pos hp] at h
      simp only [Option.some.injEq, Prod.mk.injEq] at h
      obtain ⟨rfl, rfl⟩ := h
      have hpat : pat = [] := List.prefix_nil.mp (List.isPrefixOf_iff_prefix.mp hp)
      subst hpat
      exact ⟨rfl, fun a' b' _ => Nat.zero_le _⟩
    · rw [if_neg hp] at h
      simp at h
  | cons c rest ih =>
    intro a b h
    simp only [firstSplit] at h
    by_cases hp : pat.isPrefixOf (c :: rest)
    · rw [if_pos hp] at h
      obtain ⟨t, ht⟩ := List.isPrefixOf_iff_prefix.mp hp
      have hdrop : (c :: rest).drop pat.length = t := by
        rw [← ht]; exact List.drop_left pat t
      rw [hdrop] at h
      simp only [Option.some.injEq, Prod.mk.injEq] at h
      obtain ⟨rfl, rfl⟩ := h
      refine ⟨by rw [List.nil_append, ← ht], fun a' b' _ => Nat.zero_le _⟩
    · rw [if_neg hp] at h
      cases hrec : firstSplit pat rest with
      | none => rw [hrec] at h; simp at h
      | some ab =>
        obtain ⟨a₀, b₀⟩ := ab
        rw [hrec] at h
        simp only [Option.some.injEq, Prod.mk.injEq] at h
        obtain ⟨rfl, rfl⟩ := h
        obtain ⟨heq, hmin⟩ := ih a₀ b₀ hrec
        refine ⟨by simp [heq], ?_⟩
        intro a' b' h'
        cases a' with
        | nil =>
          exfalso
          apply hp
          rw [List.nil_append] at h'
          exact List.isPrefixOf_iff_prefix.mpr ⟨b', h'.symm⟩
        | cons c' a'' =>
          simp only [List.cons_append, List.cons.injEq] at h'
          have := hmin a'' b' h'.2
          simpa using Nat.succ_le_succ this

theorem firstSplit_none_characterization (pat : List Char) :
    ∀ (s : List Char), firstSplit pat s = none → ¬ ∃ a b, s = a ++ pat ++ b := by
  intro s
  induction s with
  | nil =>
    intro h hex
    obtain ⟨a, b, hab⟩ := hex
    have ha : a = [] := by
      cases a with
      | nil => rfl
      | cons x xs => simp at hab
    subst ha
    rw [List.nil_append] at hab
    have hpat : pat = [] := by
      cases pat with
      | nil => rfl
      | cons x xs => simp at hab
    simp only [firstSplit] at h
    rw [if_pos (List.isPrefixOf_iff_prefix.mpr (by simp [hpat]))] at h
    simp at h
  | cons c rest ih =>
    intro h hex
    obtain ⟨a, b, hab⟩ := hex
    simp only [firstSplit] at h
    by_cases hp : pat.isPrefixOf (c :: rest)
    · rw [if_pos hp] at h; simp at h
    · rw [if_neg hp] at h
      cases hrec : firstSplit pat rest with
      | some ab =>
        obtain ⟨a₀, b₀⟩ := ab
        rw [hrec] at h
        simp at h
      | none =>
        cases a with
        | nil =>
          apply hp
          rw [List.nil_append] at hab
          exact List.isPrefixOf_iff_prefix.mpr ⟨b, hab.symm⟩
        | cons c' a'' =>
          apply ih hrec
          simp only [List.cons_append, List.cons.injEq] at hab
          exact ⟨a'', b, hab.2⟩

/-! ## Helper lemmas: trailing-dot stripping and rounding -/

theorem rstripDots_no_trailing (s : String) :
    (rstripDots s).data.getLast? ≠ some '.' := by
  unfold rstripDots
  rw [List.getLast?_reverse]
  have h := List.head?_dropWhile_not (fun c => c = '.') s.data.reverse
  cases hh : (s.data.reverse.dropWhile (fun c => c = '.')).head? with
  | none => simp
  | some x =>
    rw [hh] at h
    simp only [ne_eq, Option.some.injEq]
    intro hx
    rw [hx] at h
    simp at h

theorem rstripDots_append_dots (s : String) :
    ∃ k, s.data = (rstripDots s).data ++ List.replicate k '.' := by
  refine ⟨(s.data.reverse.takeWhile (fun c => c = '.')).length, ?_⟩
  unfold rstripDots
  have hsplit := List.takeWhile_append_dropWhile
    (p := fun c => c = '.') (l := s.data.reverse)
  have hrep : s.data.reverse.takeWhile (fun c => c = '.') =
      List.replicate (s.data.reverse.takeWhile (fun c => c = '.')).length '.' := by
    apply List.eq_replicate_of_mem
    intro b hb
    have := List.mem_takeWhile_imp hb
    simpa using this
  calc s.data = s.data.reverse.reverse := by rw [List.reverse_reverse]
    _ = (s.data.reverse.takeWhile (fun c => c = '.') ++
          s.data.reverse.dropWhile (fun c => c = '.')).reverse := by rw [hsplit]
    _ = (s.data.reverse.dropWhile (fun c => c = '.')).reverse ++
          (s.data.reverse.takeWhile (fun c => c = '.')).reverse := by
            rw [List.reverse_append]
    _ = _ := by rw [hrep]; simp

theorem round2_eq_self (q : ℚ) (m : ℤ) (h : q * 100 = (m : ℚ)) : round2 q = q := by
  have hq : q = (m : ℚ) / 100 := by
    rw [eq_div_iff (by norm_num : (100 : ℚ) ≠ 0)]
    exact h
  rw [round2, h, round_intCast, hq]

/-- Closed form of the deterministic duration: the `max` with 1.5 wins up to
10 words, and the rounding is exact either way. -/
theorem duration_formula (n : ℕ) :
    round2 (max (3 / 2) ((3 / 20) * (n : ℚ))) =
      if n ≤ 10 then (3 / 2 : ℚ) else 3 * (n : ℚ) / 20 := by
  by_cases h : n ≤ 10
  · rw [if_pos h]
    have hn : (n : ℚ) ≤ 10 := by exact_mod_cast h
    have hle : (3 : ℚ) / 20 * n ≤ 3 / 2 := by linarith
    rw [max_eq_left hle]
    exact round2_eq_self _ 150 (by norm_num)
  · rw [if_neg h]
    have hn : (11 : ℚ) ≤ (n : ℚ) := by exact_mod_cast Nat.not_le.mp h
    have hle : (3 : ℚ) / 2 ≤ 3 / 20 * n := by linarith
    rw [max_eq_right hle]
    have hr : round2 ((3 : ℚ) / 20 * n) = (3 : ℚ) / 20 * n :=
      round2_eq_self _ (15 * n) (by push_cast; ring)
    rw [hr]; ring

/-- A position of `structureScript d a` holds a dialogue block exactly when it
lies in the dialogue prefix. -/
theorem structureScript_isDialogue_iff (d : List DialogueBlock) (a : List ActionBlock)
    (k : Nat) (hk : k < (structureScript d a).length) :
    isDialogue ((structureScript d a).get ⟨k, hk⟩) = true ↔ k < d.length := by
  unfold structureScript at hk ⊢
  by_cases h : k < d.length
  · simp only [List.get_eq_getElem]
    rw [List.getElem_append_left (by simpa using h)]
    simp [isDialogue, h]
  · simp only [List.get_eq_getElem]
    rw [List.getElem_append_right (by simpa using Nat.not_lt.mp h)]
    simp [isDialogue, h]

/-! ## The claims -/

/-- An oracle with successful canned responses everywhere, used to witness
that the no-credential pipeline is insensitive to the external world. -/
def oracleAlt : Oracle :=
  { interpretResp := fun _ => some ⟨"T", "S", "conversation", [narratorChar], 1⟩
  , searchResp := fun _ => some ⟨["r"], ["u"]⟩
  , planResp := fun _ _ => some ⟨"t", "b", ["f"], 3, ["c"]⟩
  , dialogueResp := fun _ _ _ => some [] }

/-- C1: with no LLM or search credentials configured, `run_pipeline` is a pure
deterministic function of its prompt — its result does not depend on anything
the external providers would have answered, so any two invocations on the same
prompt return identical scripts. -/
theorem c1_pipeline_deterministic (cfg : Config) (o₁ o₂ : Oracle) (p : String)
    (h : noCreds cfg) : runPipeline cfg o₁ p = runPipeline cfg o₂ p := by
  rw [runPipeline_noCreds cfg o₁ p h, runPipeline_noCreds cfg o₂ p h]

theorem c1_witness :
    noCreds cfgNone ∧
      runPipeline cfgNone oracleAlt "A teacher and student discuss photosynthesis in a classroom."
        = runPipeline cfgNone oracleNone "A teacher and student discuss photosynthesis in a classroom." :=
  ⟨by decide, c1_pipeline_deterministic cfgNone oracleAlt oracleNone
    "A teacher and student discuss photosynthesis in a classroom." (by decide)⟩

/-- C2: on the no-credential path, the returned script has exactly
`plan.dialogue_turns` dialogue blocks and the same number of action blocks,
with `dialogue_turns = 8` on the deterministic path. -/
theorem c2_block_counts (cfg : Config) (o : Oracle) (p : String) (h : noCreds cfg) :
    ∃ s, runPipeline cfg o p = some s
      ∧ (dialogueBlocks s).length = 8
      ∧ (actionBlocks s).length = 8
      ∧ (planScene cfg o (interpretPrompt cfg o p)
          (webSearch cfg o (interpretPrompt cfg o p).scene_topic
            (interpretPrompt cfg o p).setting)).dialogue_turns = 8 := by
  refine ⟨detScript p, runPipeline_noCreds cfg o p h, ?_, ?_, ?_⟩
  · unfold detScript
    rw [filter_isDialogue_structure]
    simp [detLines_length]
  · unfold detScript
    rw [filter_isAction_structure]
    simp [addActions_length, detLines_length]
  · rw [planScene_det cfg o _ _ h.1]
    rfl

theorem c2_witness :
    noCreds cfgNone ∧
      ∃ s, runPipeline cfgNone oracleNone "A teacher and student discuss photosynthesis in a classroom." = some s
        ∧ (dialogueBlocks s).length = 8
        ∧ (actionBlocks s).length = 8
        ∧ (planScene cfgNone oracleNone
            (interpretPrompt cfgNone oracleNone "A teacher and student discuss photosynthesis in a classroom.")
            (webSearch cfgNone oracleNone
              (interpretPrompt cfgNone oracleNone "A teacher and student discuss photosynthesis in a classroom.").scene_topic
              (interpretPrompt cfgNone oracleNone "A teacher and student discuss photosynthesis in a classroom.").setting)).dialogue_turns = 8 :=
  ⟨by decide, c2_block_counts cfgNone oracleNone
    "A teacher and student discuss photosynthesis in a classroom." (by decide)⟩

/-- Every deterministic dialogue line carries the literal type entry
`"dialogue"`. -/
theorem detLines_typeField (cs : List Character) (turns : Int) (topic : String) :
    ∀ b ∈ detLines cs turns topic, b.typeField = "dialogue" := by
  intro b hb
  obtain ⟨j, _, rfl⟩ := List.mem_map.mp hb
  rfl

theorem addActionsAux_typeField (n : Nat) :
    ∀ (idx : Nat) (d : List DialogueBlock),
      ∀ a ∈ addActionsAux n idx d, a.typeField = "action" := by
  intro idx d
  induction d generalizing idx with
  | nil =>
    intro a ha
    simp [addActionsAux] at ha
  | cons line rest ih =>
    intro a ha
    simp only [addActionsAux] at ha
    rcases List.mem_cons.mp ha with h1 | h2
    · subst h1
      rfl
    · exact ih (idx + 1) a h2

/-- A position of `structureScript d a` carries type entry `"dialogue"`
exactly when it lies in the dialogue-list prefix, provided the two input
lists carry the type entries the deterministic stages write. -/
theorem structureScript_typeField_iff (d : List DialogueBlock) (a : List ActionBlock)
    (hd : ∀ x ∈ d, x.typeField = "dialogue") (ha : ∀ x ∈ a, x.typeField = "action")
    (k : Nat) (hk : k < (structureScript d a).length) :
    blockTypeField ((structureScript d a).get ⟨k, hk⟩) = "dialogue" ↔ k < d.length := by
  unfold structureScript at hk ⊢
  by_cases h : k < d.length
  · simp only [List.get_eq_getElem]
    rw [List.getElem_append_left (by simpa using h)]
    simp only [List.getElem_map, blockTypeField]
    have hmem := hd _ (List.getElem_mem (by simpa using h))
    simp [hmem, h]
  · simp only [List.get_eq_getElem]
    rw [List.getElem_append_right (by simpa using Nat.not_lt.mp h)]
    have hb : k - (List.map Block.dialogue d).length < a.length := by
      simp only [List.length_append, List.length_map] at hk
      simp only [List.length_map]
      omega
    simp only [List.getElem_map, blockTypeField]
    have hmem := ha _ (List.getElem_mem hb)
    rw [hmem]
    exact iff_of_false (by decide) h

/-- A configuration with only `GROQ_API_KEY` set: every LLM stage path is
active, no search provider is. -/
def cfgGroqOnly : Config := ⟨some "k", none, none, none⟩

/-- A dialogue-stage dict an LLM provider can return: it has all the dialogue
keys (so `add_actions` finds `line['character']`) but its `"type"` entry is
`"action"`. -/
def actionTypedLine : DialogueBlock :=
  { id := "a", typeField := "action", character := "X", traits := []
  , emotion := "neutral", text := "hi", duration := 3 / 2, voice_url := "" }

/-- A well-formed dialogue-typed dict following it in the same response. -/
def dialogueTypedLine : DialogueBlock :=
  { id := "b", typeField := "dialogue", character := "Y", traits := []
  , emotion := "neutral", text := "ho", duration := 3 / 2, voice_url := "" }

/-- An external world whose LLM dialogue call parses to
`[actionTypedLine, dialogueTypedLine]` and whose other calls fail (falling
back to the deterministic paths). -/
def oracleActionFirst : Oracle :=
  { interpretResp := fun _ => none
  , searchResp := fun _ => none
  , planResp := fun _ _ => none
  , dialogueResp := fun _ _ _ => some [actionTypedLine, dialogueTypedLine] }

/-- C3 counterexample: with an LLM credential configured, `generate_dialogue`
returns the parsed LLM JSON verbatim (no validation), so a response whose
first item is action-typed flows through `add_actions` (which only reads
`line['character']`) and `structure_script` into the output: the returned
script's type entries read `action, dialogue, action, action` — an
action-typed block precedes a dialogue-typed block, refuting the
unconditional ordering claim. -/
theorem c3_counterexample :
    Option.map (List.map blockTypeField) (runPipeline cfgGroqOnly oracleActionFirst "x")
      = some ["action", "dialogue", "action", "action"]
  ∧ runPipeline cfgGroqOnly oracleActionFirst "x" =
      some (structureScript [actionTypedLine, dialogueTypedLine]
        (addActions [actionTypedLine, dialogueTypedLine] (interpretDet "x").characters))
  ∧ ("action" : String) ≠ "dialogue" :=
  ⟨by decide, rfl, by decide⟩

/-- C3 (amended): on the no-credential configuration the script is the
dialogue lines followed by the actions, every dialogue-stage item is
dialogue-typed and every action item action-typed, and no action-typed block
precedes a dialogue-typed block.  (With credentials, unvalidated LLM JSON is
passed through and can violate this — see the counterexample.) -/
theorem c3_ordering (cfg : Config) (o : Oracle) (p : String) (h : noCreds cfg) :
    ∃ ds acts, runPipeline cfg o p = some (structureScript ds acts)
      ∧ (∀ x ∈ ds, x.typeField = "dialogue")
      ∧ (∀ x ∈ acts, x.typeField = "action")
      ∧ ∀ (i j : Nat) (hi : i < (structureScript ds acts).length)
          (hj : j < (structureScript ds acts).length), i < j →
          blockTypeField ((structureScript ds acts).get ⟨j, hj⟩) = "dialogue" →
          blockTypeField ((structureScript ds acts).get ⟨i, hi⟩) = "dialogue" := by
  have hds : ∀ x ∈ detLines (interpretDet p).characters 8 (interpretDet p).scene_topic,
      x.typeField = "dialogue" := detLines_typeField _ _ _
  have hacts : ∀ x ∈ addActions
      (detLines (interpretDet p).characters 8 (interpretDet p).scene_topic)
      (interpretDet p).characters, x.typeField = "action" :=
    addActionsAux_typeField _ 1 _
  refine ⟨detLines (interpretDet p).characters 8 (interpretDet p).scene_topic,
    addActions (detLines (interpretDet p).characters 8 (interpretDet p).scene_topic)
      (interpretDet p).characters,
    runPipeline_noCreds cfg o p h, hds, hacts, ?_⟩
  intro i j hi hj hij hdj
  rw [structureScript_typeField_iff _ _ hds hacts j hj] at hdj
  rw [structureScript_typeField_iff _ _ hds hacts i hi]
  omega

theorem c3_witness :
    noCreds cfgNone ∧
      ∃ ds acts, runPipeline cfgNone oracleNone "A cat in a box in space" =
          some (structureScript ds acts)
        ∧ (∀ x ∈ ds, x.typeField = "dialogue")
        ∧ (∀ x ∈ acts, x.typeField = "action")
        ∧ ∀ (i j : Nat) (hi : i < (structureScript ds acts).length)
            (hj : j < (structureScript ds acts).length), i < j →
            blockTypeField ((structureScript ds acts).get ⟨j, hj⟩) = "dialogue" →
            blockTypeField ((structureScript ds acts).get ⟨i, hi⟩) = "dialogue" :=
  ⟨by decide, c3_ordering cfgNone oracleNone "A cat in a box in space" (by decide)⟩

theorem addActions_ids (d : List DialogueBlock) (cs : List Character) :
    (addActions d cs).map ActionBlock.id =
      (List.range d.length).map (fun j => toString (d.length + 1 + j)) :=
  addActionsAux_ids d.length 1 d

/-- C4: `add_actions` emits one action per dialogue block — description
`"<character> gestures while speaking."`, timing `"after"`, id
`str(len(dialogue) + idx)` for the 1-indexed position `idx` — and in the
deterministic final script the dialogue ids `"1".."8"` and action ids
`"9".."16"` are pairwise distinct. -/
theorem c4_actions (d : List DialogueBlock) (cs : List Character) (cfg : Config)
    (o : Oracle) (p : String) (h : noCreds cfg) :
    (addActions d cs).map ActionBlock.timing = List.replicate d.length "after"
  ∧ (addActions d cs).map ActionBlock.description
      = d.map (fun line => line.character ++ " gestures while speaking.")
  ∧ (addActions d cs).map ActionBlock.id
      = (List.range d.length).map (fun j => toString (d.length + (j + 1)))
  ∧ ∃ s, runPipeline cfg o p = some s
      ∧ dialogueIds s = ["1", "2", "3", "4", "5", "6", "7", "8"]
      ∧ actionIds s = ["9", "10", "11", "12", "13", "14", "15", "16"]
      ∧ ∀ x ∈ dialogueIds s, x ∉ actionIds s := by
  refine ⟨addActionsAux_timings d.length 1 d, addActionsAux_descriptions d.length 1 d, ?_, ?_⟩
  · refine (addActions_ids d cs).trans ?_
    apply List.map_congr_left
    intro j _
    congr 1
    omega
  · refine ⟨detScript p, runPipeline_noCreds cfg o p h, ?_, ?_, ?_⟩
    · unfold detScript
      rw [dialogueIds_structure, detLines_ids]
      decide
    · unfold detScript
      rw [actionIds_structure, addActions_ids, detLines_length]
      decide
    · unfold detScript
      rw [dialogueIds_structure, detLines_ids, actionIds_structure, addActions_ids,
        detLines_length]
      decide

theorem c4_witness :
    noCreds cfgNone ∧
      ∃ s, runPipeline cfgNone oracleNone "A cat in a box in space" = some s
        ∧ dialogueIds s = ["1", "2", "3", "4", "5", "6", "7", "8"]
        ∧ actionIds s = ["9", "10", "11", "12", "13", "14", "15", "16"]
        ∧ ∀ x ∈ dialogueIds s, x ∉ actionIds s :=
  ⟨by decide,
    (c4_actions [] [] cfgNone oracleNone "A cat in a box in space" (by decide)).2.2.2⟩

/-- C5: the deterministic Interpret splits the stripped prompt only on the
FIRST occurrence of the literal `" in "`: when the separator occurs, the part
before the first occurrence feeds the topic and everything after it feeds the
setting (each then normalized per C6); when it does not occur, the whole
stripped prompt feeds the topic and the setting is `"unknown"`.  In
particular `"A cat in a box in space"` gives topic `"A cat"` and setting
`"a box in space"`. -/
theorem c5_interpret_split (p : String) :
    (∀ a b, firstSplit inSep.data (pyStrip p).data = some (a, b) →
        (pyStrip p).data = a ++ inSep.data ++ b
      ∧ (∀ x y, (pyStrip p).data = x ++ inSep.data ++ y → a.length ≤ x.length)
      ∧ (interpretDet p).scene_topic = pyCapitalize (rstripDots ⟨a⟩)
      ∧ (interpretDet p).setting = rstripDots ⟨b⟩)
  ∧ (firstSplit inSep.data (pyStrip p).data = none →
        (¬ ∃ a b, (pyStrip p).data = a ++ inSep.data ++ b)
      ∧ (interpretDet p).scene_topic = pyCapitalize (rstripDots (pyStrip p))
      ∧ (interpretDet p).setting = "unknown")
  ∧ (interpretDet "A cat in a box in space").scene_topic = "A cat"
  ∧ (interpretDet "A cat in a box in space").setting = "a box in space" := by
  refine ⟨?_, ?_, by decide, by decide⟩
  · intro a b hsp
    obtain ⟨heq, hmin⟩ := firstSplit_some_characterization inSep.data (pyStrip p).data a b hsp
    refine ⟨heq, hmin, ?_, ?_⟩
    · simp [interpretDet, topicRaw, hsp]
    · simp [interpretDet, hsp]
  · intro hn
    refine ⟨firstSplit_none_characterization inSep.data (pyStrip p).data hn, ?_, ?_⟩
    · simp [interpretDet, topicRaw, hn]
    · simp [interpretDet, hn]

theorem c5_witness :
    (interpretDet "A cat in a box in space").scene_topic = "A cat"
    ∧ (interpretDet "A cat in a box in space").setting = "a box in space" :=
  ⟨(c5_interpret_split "A cat in a box in space").2.2.1,
    (c5_interpret_split "A cat in a box in space").2.2.2⟩

/-- Follows the CLAIM's words, not the code (for refutation only): strip a
single trailing period (at most one) when one is present. -/
def claimStripSingleDot (s : String) : String :=
  if s.data.getLast? = some '.' then ⟨s.data.dropLast⟩ else s

/-- Follows the CLAIM's words, not the code (for refutation only): capitalize
the first letter, changing only the first character and leaving the remaining
characters unchanged. -/
def claimCapitalizeFirstOnly (s : String) : String :=
  ⟨match s.data with
   | [] => []
   | c :: rest => Char.toUpper c :: rest⟩

/-- C6 counterexample: on the prompt `"a CAT.."` the claimed normalization
(strip at most one trailing period, capitalize only the first character)
predicts scene_topic `"A CAT."`, but the code's `rstrip(".")` removes BOTH
trailing periods and Python's `str.capitalize` lowercases the remaining
characters, producing `"A cat"`. -/
theorem c6_counterexample :
    claimCapitalizeFirstOnly (claimStripSingleDot "a CAT..") = "A CAT."
  ∧ (interpretDet "a CAT..").scene_topic = "A cat"
  ∧ (interpretDet "a CAT..").scene_topic ≠
      claimCapitalizeFirstOnly (claimStripSingleDot "a CAT..") :=
  ⟨by decide, by decide, by decide⟩

/-- C6 (amended): the deterministic Interpret strips ALL trailing periods
(zero or more) from the raw topic and setting, and produces `scene_topic` by
Python `str.capitalize`, which uppercases the first character and lowercases
every remaining character of the topic. -/
theorem c6_normalization (p : String) :
    (interpretDet p).scene_topic = pyCapitalize (rstripDots (topicRaw p))
  ∧ (interpretDet p).setting = rstripDots (settingRaw p)
  ∧ (rstripDots (topicRaw p)).data.getLast? ≠ some '.'
  ∧ (∃ k, (topicRaw p).data = (rstripDots (topicRaw p)).data ++ List.replicate k '.')
  ∧ (rstripDots (settingRaw p)).data.getLast? ≠ some '.'
  ∧ (∃ k, (settingRaw p).data = (rstripDots (settingRaw p)).data ++ List.replicate k '.')
  ∧ (pyCapitalize (rstripDots (topicRaw p))).data =
      (match (rstripDots (topicRaw p)).data with
       | [] => []
       | c :: rest => Char.toUpper c :: rest.map Char.toLower) := by
  refine ⟨rfl, ?_, rstripDots_no_trailing _, rstripDots_append_dots _,
    rstripDots_no_trailing _, rstripDots_append_dots _, rfl⟩
  cases hs : firstSplit inSep.data (pyStrip p).data with
  | some ab =>
    obtain ⟨a, b⟩ := ab
    simp [interpretDet, settingRaw, hs]
  | none =>
    simp only [interpretDet, settingRaw, hs]
    decide

theorem c6_witness :
    (interpretDet "Hi there").scene_topic = pyCapitalize (rstripDots (topicRaw "Hi there")) :=
  (c6_normalization "Hi there").1

theorem genDialogueDet_mem (cs : List Character) (turns : Int) (topic : String)
    (L : List DialogueBlock) (h : genDialogueDet cs turns topic = some L)
    (b : DialogueBlock) (hb : b ∈ L) :
    ∃ i speaker, b = mkLine i speaker topic := by
  cases cs with
  | nil =>
    simp only [genDialogueDet] at h
    by_cases ht : 1 ≤ turns
    · rw [if_pos ht] at h
      simp at h
    · rw [if_neg ht] at h
      simp only [Option.some.injEq] at h
      subst h
      simp at hb
  | cons c rest =>
    simp only [genDialogueDet, Option.some.injEq] at h
    subst h
    unfold detLines at hb
    obtain ⟨j, _, rfl⟩ := List.mem_map.mp hb
    exact ⟨j + 1, _, rfl⟩

/-- C7: every deterministic dialogue line with `n` whitespace-separated words
has duration `round(max(1.5, 0.15 * n), 2)` (equivalently: 1.5 up to 10
words, `0.15 * n` beyond — the rounding is exact), emotion `"neutral"` and an
empty voice url; the 6-word line `"This is line 1 about Cats."` gets 1.5. -/
theorem c7_duration (cs : List Character) (turns : Int) (topic : String)
    (L : List DialogueBlock) (h : genDialogueDet cs turns topic = some L) :
    (∀ b ∈ L,
        b.duration = round2 (max (3 / 2) ((3 / 20) * (numWords b.text : ℚ)))
      ∧ b.duration =
          (if numWords b.text ≤ 10 then (3 / 2 : ℚ) else 3 * (numWords b.text : ℚ) / 20)
      ∧ b.emotion = "neutral"
      ∧ b.voice_url = "")
  ∧ numWords "This is line 1 about Cats." = 6
  ∧ round2 (max (3 / 2) ((3 / 20) * ((numWords "This is line 1 about Cats.") : ℚ))) = 3 / 2 := by
  refine ⟨?_, by decide, ?_⟩
  · intro b hb
    obtain ⟨i, sp, rfl⟩ := genDialogueDet_mem cs turns topic L h b hb
    refine ⟨rfl, ?_, rfl, rfl⟩
    have h1 : (mkLine i sp topic).duration =
        round2 (max (3 / 2) ((3 / 20) * (numWords (mkLine i sp topic).text : ℚ))) := rfl
    rw [h1, duration_formula]
  · rw [duration_formula]
    have h6 : numWords "This is line 1 about Cats." = 6 := by decide
    rw [h6]
    norm_num

theorem c7_witness :
    numWords "This is line 1 about Cats." = 6
    ∧ round2 (max (3 / 2) ((3 / 20) * ((numWords "This is line 1 about Cats.") : ℚ))) = 3 / 2 :=
  ⟨(c7_duration [narratorChar] 1 "Cats" (detLines [narratorChar] 1 "Cats") rfl).2.1,
    (c7_duration [narratorChar] 1 "Cats" (detLines [narratorChar] 1 "Cats") rfl).2.2⟩

/-- C8: `web_search` never fails outward.  It is a total function; whenever no
search key is configured, or the provider call fails (raises / does not
parse), it returns exactly the two deterministic reference strings with an
empty image list; and in every case its result is either that fallback or the
provider's parsed response. -/
theorem c8_web_search_total (cfg : Config) (o : Oracle) (t s : String) :
    (searchConfigured cfg = false → webSearch cfg o t s = fallbackRefs t s)
  ∧ (o.searchResp (pyStrip (t ++ " " ++ s)) = none → webSearch cfg o t s = fallbackRefs t s)
  ∧ (fallbackRefs t s).references =
      [ "Facts about " ++ t ++ " gleaned from a web search."
      , "Information about " ++ s ++ " for background." ]
  ∧ (fallbackRefs t s).images = []
  ∧ (webSearch cfg o t s = fallbackRefs t s
      ∨ ∃ r, o.searchResp (pyStrip (t ++ " " ++ s)) = some r ∧ webSearch cfg o t s = r) := by
  refine ⟨?_, ?_, rfl, rfl, ?_⟩
  · intro h
    simp [webSearch, h]
  · intro h
    by_cases hc : searchConfigured cfg
    · simp [webSearch, hc, h]
    · simp [webSearch, hc]
  · by_cases hc : searchConfigured cfg
    · cases hr : o.searchResp (pyStrip (t ++ " " ++ s)) with
      | none =>
        left
        simp [webSearch, hc, hr]
      | some r =>
        right
        refine ⟨r, rfl, ?_⟩
        simp [webSearch, hc, hr]
    · left
      simp [webSearch, hc]

theorem c8_witness :
    searchConfigured cfgNone = false
    ∧ webSearch cfgNone oracleNone "Photosynthesis" "a classroom" =
        fallbackRefs "Photosynthesis" "a classroom" :=
  ⟨by decide, (c8_web_search_total cfgNone oracleNone "Photosynthesis" "a classroom").1 (by decide)⟩

/-- C9 counterexample: the body `5` is valid JSON and has no `prompt` field,
yet the endpoint does not answer 400/"Missing prompt": the guard evaluates
`'prompt' not in 5`, which raises `TypeError`, an unhandled server error. -/
theorem c9_counterexample :
    generateScene cfgNone oracleNone (some (Json.num 5)) = HttpResult.serverError
  ∧ generateScene cfgNone oracleNone (some (Json.num 5)) ≠
      HttpResult.response 400 RespBody.errorMissingPrompt :=
  ⟨rfl, by decide⟩

/-- C9 (amended): the endpoint answers 400 with the "Missing prompt" error —
independently of configuration and of the external world, so without invoking
the pipeline — whenever the body is not valid JSON, or parses to a falsy JSON
value (`{}`, `[]`, `""`, `0`, `false`), or parses to a JSON object without a
`"prompt"` key.  (A truthy non-object body such as `5` instead escapes the
guard and becomes an unhandled server error, see the counterexample.) -/
theorem c9_missing_prompt (cfg : Config) (o : Oracle) (data : Option Json)
    (h : data = none
      ∨ (∃ j, data = some j ∧ pyTruthy j = false)
      ∨ (∃ fields, data = some (Json.obj fields) ∧ "prompt" ∉ fields.map Prod.fst)) :
    generateScene cfg o data = HttpResult.response 400 RespBody.errorMissingPrompt := by
  rcases h with rfl | ⟨j, rfl, hj⟩ | ⟨fields, rfl, hf⟩
  · rfl
  · simp [generateScene, hj]
  · by_cases ht : pyTruthy (Json.obj fields)
    · have hany : fields.any (fun kv => kv.1 = "prompt") = false := by
        simp only [List.any_eq_false, decide_eq_true_eq]
        intro kv hkv hEq
        exact hf (List.mem_map.mpr ⟨kv, hkv, hEq⟩)
      simp [generateScene, ht, pyContainsPrompt, hany]
    · simp [generateScene, ht]

theorem c9_witness :
    (some (Json.obj []) = none
      ∨ (∃ j, some (Json.obj []) = some j ∧ pyTruthy j = false)
      ∨ (∃ fields, some (Json.obj []) = some (Json.obj fields)
          ∧ "prompt" ∉ fields.map Prod.fst))
    ∧ generateScene cfgNone oracleNone (some (Json.obj [])) =
        HttpResult.response 400 RespBody.errorMissingPrompt :=
  ⟨Or.inr (Or.inl ⟨Json.obj [], rfl, rfl⟩),
    c9_missing_prompt cfgNone oracleNone (some (Json.obj []))
      (Or.inr (Or.inl ⟨Json.obj [], rfl, rfl⟩))⟩

/-- C10: the deterministic Interpret always returns a nonempty character list
(exactly one Narrator when neither keyword occurs); with an empty list and at
least one turn the dialogue stage's cycle would fail (`StopIteration`,
modelled as `none`), but under the no-credential pipeline that branch is
unreachable: the pipeline always returns a script. -/
theorem c10_characters_safety (cfg : Config) (o : Oracle) (p : String) (h : noCreds cfg) :
    (interpretPrompt cfg o p).characters ≠ []
  ∧ (containsSub "teacher" (pyLower (pyStrip p)) = false →
      containsSub "student" (pyLower (pyStrip p)) = false →
      (interpretPrompt cfg o p).characters = [narratorChar])
  ∧ (∀ turns : Int, 1 ≤ turns → ∀ topic, genDialogueDet [] turns topic = none)
  ∧ (∃ s, runPipeline cfg o p = some s) := by
  have hi : interpretPrompt cfg o p = interpretDet p := interpretPrompt_det cfg o p h.1
  refine ⟨?_, ?_, ?_, ⟨detScript p, runPipeline_noCreds cfg o p h⟩⟩
  · rw [hi, interpretDet_characters]
    exact charactersDet_ne_nil _
  · intro h1 h2
    rw [hi, interpretDet_characters]
    unfold charactersDet
    simp [h1, h2]
  · intro turns ht topic
    simp [genDialogueDet, ht]

theorem c10_witness :
    noCreds cfgNone ∧ ∃ s, runPipeline cfgNone oracleNone "A dog barks." = some s :=
  ⟨by decide, (c10_characters_safety cfgNone oracleNone "A dog barks." (by decide)).2.2.2⟩
